import Mathlib

/-
Verification of the USB HID keyboard example
(src/examples/nrf/src/bin/usb_hid_keyboard.rs).

The program is shallowly embedded: the capacity-1 command channel becomes an
explicit `Option DeviceCommand` slot, the two sticky power-status registers
become booleans in an explicit state record, the global SUSPENDED atomic and
the handler's `configured` atomic become boolean fields of a device state
record, and one iteration of the input-report loop becomes a function that
returns the ordered trace of its observable effects.
-/

namespace UsbHidKeyboard

/-- The `DeviceCommand` enum of embassy-usb, as used by the example:
`Enable`, `Disable`, `RemoteWakeup`. -/
inductive DeviceCommand where
  | Enable
  | Disable
  | RemoteWakeup
deriving DecidableEq, Repr

/-- A `Channel<..., DeviceCommand, 1>` holds at most one pending command. -/
abbrev Mailbox := Option DeviceCommand

/-- `Channel::try_send`: non-blocking enqueue into the capacity-1 channel.
Returns the new channel contents and whether the send succeeded
(`is_err()` is the negation of the second component). -/
def try_send (mb : Mailbox) (c : DeviceCommand) : Mailbox × Bool :=
  match mb with
  | none => (some c, true)
  | some x => (some x, false)

/-- State visible to `on_power_interrupt`:
the two sticky power-event registers (`events_usbdetected`,
`events_usbremoved`), the `USB_COMMANDS` channel slot, plus two history
("ghost") fields used only by the specification: `warnings` counts the
`warn!` diagnostics emitted for failed sends, and `delivered` logs, in
order, every command successfully placed into the channel. -/
structure PowerState where
  events_usbdetected : Bool
  events_usbremoved : Bool
  mailbox : Mailbox
  warnings : Nat
  delivered : List DeviceCommand
deriving DecidableEq, Repr

/-- `on_power_interrupt`: for the detected flag, then the removed flag, in
that order: if the flag reads non-zero, reset it and `try_send` the matching
command (`Enable` for detected, `Disable` for removed); on a failed send,
emit one warning and proceed. -/
def on_power_interrupt (s : PowerState) : PowerState :=
  let s1 :=
    if s.events_usbdetected then
      let r := try_send s.mailbox DeviceCommand.Enable
      { s with
        events_usbdetected := false
        mailbox := r.1
        warnings := if r.2 then s.warnings else s.warnings + 1
        delivered := if r.2 then s.delivered ++ [DeviceCommand.Enable] else s.delivered }
    else s
  if s1.events_usbremoved then
    let r := try_send s1.mailbox DeviceCommand.Disable
    { s1 with
      events_usbremoved := false
      mailbox := r.1
      warnings := if r.2 then s1.warnings else s1.warnings + 1
      delivered := if r.2 then s1.delivered ++ [DeviceCommand.Disable] else s1.delivered }
  else s1

/-- The enqueue attempts one invocation of the handler makes, in its fixed
evaluation order: `Enable` for an asserted detected flag first, then
`Disable` for an asserted removed flag. -/
def attempts (s : PowerState) : List DeviceCommand :=
  (if s.events_usbdetected then [DeviceCommand.Enable] else [])
    ++ (if s.events_usbremoved then [DeviceCommand.Disable] else [])

/-- The commands newly delivered into the channel by one invocation:
the part of the delivery log the invocation appended. -/
def newDelivered (s : PowerState) : List DeviceCommand :=
  (on_power_interrupt s).delivered.drop s.delivered.length

/-- The flags the lifecycle callbacks read and write: the handler's
`configured` atomic (Relaxed) and the process-wide `SUSPENDED` atomic
(Release store / Acquire load). -/
structure DeviceState where
  configured : Bool
  suspended : Bool
deriving DecidableEq, Repr

/-- `MyDeviceStateHandler::new()` builds the handler with
`configured: AtomicBool::new(false)`; the static `SUSPENDED` is likewise
initialized to `AtomicBool::new(false)`. -/
def initialDeviceState : DeviceState :=
  { configured := false, suspended := false }

namespace MyDeviceStateHandler

/-- `fn reset`: store false into `configured`; the rest is a diagnostic. -/
def reset (s : DeviceState) : DeviceState :=
  { s with configured := false }

/-- `fn addressed`: store false into `configured`; the address is only
logged. -/
def addressed (s : DeviceState) (_addr : Nat) : DeviceState :=
  { s with configured := false }

/-- `fn configured`: store the flag argument into `configured`; the branch
on the flag only selects the diagnostic text. -/
def configured (s : DeviceState) (flag : Bool) : DeviceState :=
  { s with configured := flag }

/-- `fn suspended`: if the flag is set, store true into `SUSPENDED`;
otherwise store false into `SUSPENDED` (the load of `configured` in the
else branch only selects the diagnostic text). -/
def suspended (s : DeviceState) (flag : Bool) : DeviceState :=
  if flag then
    { s with suspended := true }
  else
    { s with suspended := false }

/-- `fn disabled`: store false into `configured`; the rest is a
diagnostic. -/
def disabled (s : DeviceState) : DeviceState :=
  { s with configured := false }

end MyDeviceStateHandler

/-- One lifecycle callback invocation, as the transport loop delivers them
to the handler. -/
inductive DeviceEvent where
  | reset
  | addressed (addr : Nat)
  | configured (flag : Bool)
  | suspended (flag : Bool)
  | disabled
deriving DecidableEq, Repr

/-- Dispatch one lifecycle callback to the handler. -/
def applyEvent (s : DeviceState) : DeviceEvent → DeviceState
  | DeviceEvent.reset => MyDeviceStateHandler.reset s
  | DeviceEvent.addressed a => MyDeviceStateHandler.addressed s a
  | DeviceEvent.configured b => MyDeviceStateHandler.configured s b
  | DeviceEvent.suspended b => MyDeviceStateHandler.suspended s b
  | DeviceEvent.disabled => MyDeviceStateHandler.disabled s

/-- Run a sequence of lifecycle callbacks from a starting state. -/
def runEvents (s : DeviceState) (es : List DeviceEvent) : DeviceState :=
  es.foldl applyEvent s

/-- The `KeyboardReport` payload: modifier byte, reserved byte, LED byte
and the six keycode slots (a fixed-size array in the source, a list of its
six entries here). -/
structure KeyboardReport where
  modifier : Nat
  reserved : Nat
  leds : Nat
  keycodes : List Nat
deriving DecidableEq, Repr

/-- The report built after the press edge:
`keycodes: [4, 0, 0, 0, 0, 0], leds: 0, modifier: 0, reserved: 0`. -/
def pressedReport : KeyboardReport :=
  { modifier := 0, reserved := 0, leds := 0, keycodes := [4, 0, 0, 0, 0, 0] }

/-- The report built after the release edge: all fields zero. -/
def releasedReport : KeyboardReport :=
  { modifier := 0, reserved := 0, leds := 0, keycodes := [0, 0, 0, 0, 0, 0] }

/-- Observable effects of the input-report loop body, in program order:
a blocking send of a command into `USB_COMMANDS`, a report submission
attempt via `hid_in.serialize`, and a `warn!` diagnostic carrying the
serialize error (the error payload is modelled as an opaque code). -/
inductive InEvent where
  | command (c : DeviceCommand)
  | submit (r : KeyboardReport)
  | warn (e : Nat)
deriving DecidableEq, Repr

/-- `hid_in.serialize(&report).await` followed by the match on the result:
the submission attempt itself, then — only on `Err(e)` — one warning.
`res = none` models `Ok(())`, `res = some e` models `Err(e)`. -/
def serializeStep (r : KeyboardReport) (res : Option Nat) : List InEvent :=
  InEvent.submit r ::
    (match res with
     | none => []
     | some e => [InEvent.warn e])

/-- One iteration of the `in_fut` loop body, from the press edge to the end
of the release handling: read `SUSPENDED` (acquire) and, when set, send
`RemoteWakeup` (blocking send); then build and submit the pressed report;
after the release edge, build and submit the released report. `res1` and
`res2` are the outcomes the endpoint returns for the two submissions. -/
def in_fut_iteration (suspendedFlag : Bool) (res1 res2 : Option Nat) : List InEvent :=
  (if suspendedFlag then [InEvent.command DeviceCommand.RemoteWakeup] else [])
    ++ serializeStep pressedReport res1
    ++ serializeStep releasedReport res2

/-- Project the report out of a submission event. -/
def submittedOf : InEvent → Option KeyboardReport
  | InEvent.submit r => some r
  | _ => none

/-- Project the error code out of a warning event. -/
def warnOf : InEvent → Option Nat
  | InEvent.warn e => some e
  | _ => none

/-- The `ReportId` of embassy-usb-hid: an In, Out or Feature report id. -/
inductive ReportId where
  | In (id : Nat)
  | Out (id : Nat)
  | Feature (id : Nat)
deriving DecidableEq, Repr

/-- The control-transfer response `OutResponse` of embassy-usb. -/
inductive OutResponse where
  | Accepted
  | Rejected
deriving DecidableEq, Repr

namespace MyRequestHandler

/-- `fn get_report`: log and return `None`. -/
def get_report (_id : ReportId) (_buf : List Nat) : Option Nat :=
  none

/-- `fn set_report`: log and return `OutResponse::Accepted`. -/
def set_report (_id : ReportId) (_data : List Nat) : OutResponse :=
  OutResponse.Accepted

/-- `fn set_idle`: log only; the duration is modelled as a tick count. -/
def set_idle (_id : Option ReportId) (_dur : Nat) : Unit :=
  ()

/-- `fn get_idle`: log and return `None`. -/
def get_idle (_id : Option ReportId) : Option Nat :=
  none

end MyRequestHandler

/-! Helper lemmas about callback sequences. -/

theorem runEvents_append (s : DeviceState) (es1 es2 : List DeviceEvent) :
    runEvents s (es1 ++ es2) = runEvents (runEvents s es1) es2 := by
  simp [runEvents, List.foldl_append]

theorem runEvents_suspended_map_configured (bs : List Bool) :
    ∀ s : DeviceState,
      (runEvents s (bs.map DeviceEvent.suspended)).configured = s.configured := by
  induction bs with
  | nil => intro s; rfl
  | cons b bs ih =>
      intro s
      have hstep : runEvents s ((b :: bs).map DeviceEvent.suspended)
          = runEvents (applyEvent s (DeviceEvent.suspended b)) (bs.map DeviceEvent.suspended) := rfl
      rw [hstep, ih]
      cases b <;> simp [applyEvent, MyDeviceStateHandler.suspended]

theorem runEvents_no_suspend_true (es : List DeviceEvent) :
    ∀ s : DeviceState, s.suspended = false → DeviceEvent.suspended true ∉ es →
      (runEvents s es).suspended = false := by
  induction es with
  | nil => intro s hs _; exact hs
  | cons e es ih =>
      intro s hs h
      have h2 : DeviceEvent.suspended true ∉ es := fun hm => h (List.mem_cons_of_mem _ hm)
      have hstep : runEvents s (e :: es) = runEvents (applyEvent s e) es := rfl
      rw [hstep]
      apply ih _ _ h2
      cases e with
      | reset => simpa [applyEvent, MyDeviceStateHandler.reset] using hs
      | addressed a => simpa [applyEvent, MyDeviceStateHandler.addressed] using hs
      | configured b => simpa [applyEvent, MyDeviceStateHandler.configured] using hs
      | disabled => simpa [applyEvent, MyDeviceStateHandler.disabled] using hs
      | suspended b =>
          cases b with
          | false => simp [applyEvent, MyDeviceStateHandler.suspended]
          | true => exact absurd (List.mem_cons_self _ _) h

/-! The claim theorems. -/

/-- C1: in the input-report loop, when the suspended flag is true at the
press edge the very first effect is enqueueing a RemoteWakeup command and
the pressed-report submission comes right after it; when the flag is false,
no command at all (in particular no RemoteWakeup) is enqueued in that
iteration. -/
theorem remote_wakeup_sent_iff_suspended (res1 res2 : Option Nat) :
    (in_fut_iteration true res1 res2).head? = some (InEvent.command DeviceCommand.RemoteWakeup)
    ∧ (in_fut_iteration true res1 res2)[1]? = some (InEvent.submit pressedReport)
    ∧ ∀ c : DeviceCommand, InEvent.command c ∉ in_fut_iteration false res1 res2 := by
  refine ⟨?_, ?_, ?_⟩ <;> cases res1 <;> cases res2 <;>
    simp [in_fut_iteration, serializeStep]

/-- C2: one invocation of the power interrupt handler clears both sticky
flags, appends its successful deliveries to the delivery log as an initial
segment of its enqueue attempts (Enable for the detected flag before
Disable for the removed flag), and every attempt ends either as a delivery
or as exactly one recorded warning, with no retry. -/
theorem power_interrupt_processes_each_flag (s : PowerState) :
    (on_power_interrupt s).events_usbdetected = false
    ∧ (on_power_interrupt s).events_usbremoved = false
    ∧ (on_power_interrupt s).delivered = s.delivered ++ newDelivered s
    ∧ newDelivered s = (attempts s).take (newDelivered s).length
    ∧ (newDelivered s).length + (on_power_interrupt s).warnings
        = (attempts s).length + s.warnings := by
  obtain ⟨d, r, mb, w, del⟩ := s
  cases d <;> cases r <;> cases mb <;>
    simp [on_power_interrupt, try_send, attempts, newDelivered, List.drop_left,
      List.drop_length] <;> omega

/-- C3: whatever combination of flags is asserted and whatever the
capacity-1 mailbox initially holds, one invocation of the power interrupt
handler delivers at most one new command, and any delivered command is the
one matching the first asserted flag in the fixed detected-before-removed
order. -/
theorem power_interrupt_at_most_one_delivery (s : PowerState) :
    (newDelivered s).length ≤ 1
    ∧ ∀ c ∈ newDelivered s, (attempts s).head? = some c := by
  obtain ⟨d, r, mb, w, del⟩ := s
  cases d <;> cases r <;> cases mb <;>
    simp [on_power_interrupt, try_send, attempts, newDelivered, List.drop_left,
      List.drop_length]

/-- C4: over any callback sequence, right after a configured(b) call — and
still after any run of intervening suspended(..) calls, the only callbacks
that leave the configured flag alone — the configured flag equals b, the
argument of the most recent configured call; and applying reset,
addressed(addr) or disabled to any state forces the configured flag to
false. -/
theorem configured_tracks_latest_call (s t : DeviceState) (pre : List DeviceEvent)
    (b : Bool) (bs : List Bool) (a : Nat) :
    (runEvents s (pre ++ DeviceEvent.configured b :: bs.map DeviceEvent.suspended)).configured = b
    ∧ (applyEvent t DeviceEvent.reset).configured = false
    ∧ (applyEvent t (DeviceEvent.addressed a)).configured = false
    ∧ (applyEvent t DeviceEvent.disabled).configured = false := by
  refine ⟨?_, rfl, rfl, rfl⟩
  have hsplit : pre ++ DeviceEvent.configured b :: bs.map DeviceEvent.suspended
      = (pre ++ [DeviceEvent.configured b]) ++ bs.map DeviceEvent.suspended := by
    simp
  rw [hsplit, runEvents_append, runEvents_suspended_map_configured,
    runEvents_append]
  rfl

/-- C5: suspended(true) sets the process-wide suspended flag whatever the
configured flag holds, suspended(false) clears it, and an input-report
iteration run after the pair suspended(true); suspended(false) reads the
updated (false) value and enqueues no command. -/
theorem suspended_callback_toggles_flag (s : DeviceState) (res1 res2 : Option Nat) :
    (MyDeviceStateHandler.suspended s true).suspended = true
    ∧ (MyDeviceStateHandler.suspended (MyDeviceStateHandler.suspended s true) false).suspended
        = false
    ∧ ∀ c : DeviceCommand,
        InEvent.command c ∉
          in_fut_iteration
            (MyDeviceStateHandler.suspended (MyDeviceStateHandler.suspended s true) false).suspended
            res1 res2 := by
  refine ⟨rfl, rfl, ?_⟩
  cases res1 <;> cases res2 <;>
    simp [MyDeviceStateHandler.suspended, in_fut_iteration, serializeStep]

/-- C6: each iteration of the input-report loop submits exactly two
reports, the pressed one first and the released one second; the pressed
report carries the target keycode 4 in its first keycode slot and zeros in
the other five slots and in the modifier, reserved and LED fields, and the
released report is entirely zero. -/
theorem reports_per_cycle (susp : Bool) (res1 res2 : Option Nat) :
    (in_fut_iteration susp res1 res2).filterMap submittedOf = [pressedReport, releasedReport]
    ∧ pressedReport.keycodes.head? = some 4
    ∧ pressedReport.keycodes.drop 1 = [0, 0, 0, 0, 0]
    ∧ pressedReport.modifier = 0
    ∧ pressedReport.reserved = 0
    ∧ pressedReport.leds = 0
    ∧ releasedReport
        = { modifier := 0, reserved := 0, leds := 0, keycodes := [0, 0, 0, 0, 0, 0] } := by
  refine ⟨?_, rfl, rfl, rfl, rfl, rfl, rfl⟩
  cases susp <;> cases res1 <;> cases res2 <;>
    simp [in_fut_iteration, serializeStep, submittedOf]

/-- C7: in each iteration of the input-report loop the warnings emitted are
exactly the submission failures, in submission order — a failed submission
yields one warning carrying its error and a successful one yields none —
and each of the two reports is submitted exactly once, so no failed
submission is retried. -/
theorem submission_failure_warns_without_retry (susp : Bool) (res1 res2 : Option Nat) :
    (in_fut_iteration susp res1 res2).filterMap warnOf = res1.toList ++ res2.toList
    ∧ ((in_fut_iteration susp res1 res2).filterMap submittedOf).length = 2 := by
  cases susp <;> cases res1 <;> cases res2 <;>
    simp [in_fut_iteration, serializeStep, submittedOf, warnOf]

/-- C8: for every report id, buffer, payload and idle duration, the default
request handler returns None from get_report, Accepted from set_report,
None from get_idle and unit from set_idle. -/
theorem default_request_handler_responses (id : ReportId) (buf data : List Nat)
    (oid : Option ReportId) (dur : Nat) :
    MyRequestHandler.get_report id buf = none
    ∧ MyRequestHandler.set_report id data = OutResponse.Accepted
    ∧ MyRequestHandler.get_idle oid = none
    ∧ MyRequestHandler.set_idle oid dur = () := by
  exact ⟨rfl, rfl, rfl, rfl⟩

/-- C9: the suspended(b) callback never changes the configured flag, and
the reset, addressed(addr), configured(b) and disabled callbacks never
change the process-wide suspended flag: each callback writes at most its
own flag. -/
theorem callbacks_write_only_own_flag (s : DeviceState) (b : Bool) (a : Nat) :
    (MyDeviceStateHandler.suspended s b).configured = s.configured
    ∧ (MyDeviceStateHandler.reset s).suspended = s.suspended
    ∧ (MyDeviceStateHandler.addressed s a).suspended = s.suspended
    ∧ (MyDeviceStateHandler.configured s b).suspended = s.suspended
    ∧ (MyDeviceStateHandler.disabled s).suspended = s.suspended := by
  refine ⟨?_, rfl, rfl, rfl, rfl⟩
  cases b <;> simp [MyDeviceStateHandler.suspended]

/-- C10: at startup both the handler's configured flag and the process-wide
suspended flag are initialized to false, and after any callback sequence
containing no suspended(true) call the suspended flag is still false, so an
input-report iteration at a press edge before any suspended(true) callback
enqueues no RemoteWakeup (indeed no command at all). -/
theorem startup_flags_false_no_wakeup (es : List DeviceEvent) (res1 res2 : Option Nat)
    (h : DeviceEvent.suspended true ∉ es) :
    initialDeviceState.configured = false
    ∧ initialDeviceState.suspended = false
    ∧ (runEvents initialDeviceState es).suspended = false
    ∧ ∀ c : DeviceCommand,
        InEvent.command c ∉
          in_fut_iteration (runEvents initialDeviceState es).suspended res1 res2 := by
  have hsusp : (runEvents initialDeviceState es).suspended = false :=
    runEvents_no_suspend_true es initialDeviceState rfl h
  refine ⟨rfl, rfl, hsusp, ?_⟩
  rw [hsusp]
  cases res1 <;> cases res2 <;> simp [in_fut_iteration, serializeStep]

/-- Witness for C10 at the concrete sequence
[reset, configured true, suspended false] with a failing first submission:
the hypothesis (no suspended(true) in the sequence) is checked by decide
and the theorem is applied there. -/
theorem startup_flags_false_no_wakeup_witness :
    DeviceEvent.suspended true ∉
        [DeviceEvent.reset, DeviceEvent.configured true, DeviceEvent.suspended false]
    ∧ (initialDeviceState.configured = false
        ∧ initialDeviceState.suspended = false
        ∧ (runEvents initialDeviceState
            [DeviceEvent.reset, DeviceEvent.configured true, DeviceEvent.suspended false]).suspended
            = false
        ∧ ∀ c : DeviceCommand,
            InEvent.command c ∉
              in_fut_iteration
                (runEvents initialDeviceState
                  [DeviceEvent.reset, DeviceEvent.configured true,
                    DeviceEvent.suspended false]).suspended
                (some 3) none) :=
  ⟨by decide,
    startup_flags_false_no_wakeup
      [DeviceEvent.reset, DeviceEvent.configured true, DeviceEvent.suspended false]
      (some 3) none (by decide)⟩

end UsbHidKeyboard
